import Mathlib

/-!
Shallow embedding of `src/app.py` (youtube-extractor): a single Python script
that resolves a YouTube channel handle to a channel id, pages through the
channel's uploads playlist, and writes a text report.

Python dicts from the remote API are embedded as Lean structures with the
fields the script reads; network calls are embedded as function-valued
fields of a `YouTubeAPI` record (returning `Except` for raised transport
errors); the pagination while-loop is embedded as structural recursion over
the sequence of responses the upstream would give to consecutive requests.
-/

/-- Python `str.split(sep)` for a single-character separator, on `List Char`.
Matches CPython: `"".split(c) = [""]`, adjacent separators give empty groups. -/
def pySplit (sep : Char) : List Char → List (List Char)
  | [] => [[]]
  | c :: rest =>
    if c = sep then [] :: pySplit sep rest
    else
      match pySplit sep rest with
      | [] => [[c]]
      | g :: gs => (c :: g) :: gs

/-- Python `s.split(sep)` on `String`. -/
def pySplitStr (sep : Char) (s : String) : List String :=
  (pySplit sep s.toList).map (fun l => String.mk l)

/-! ## Date parsing (`parse_youtube_date`, app.py lines 7-16)

`datetime.strptime(s, '%Y-%m-%dT%H:%M:%SZ')` embedded directly: each format
directive is parsed with the same alternation order as CPython's `_strptime`
regexes, literals must match exactly, the whole string must be consumed, and
the resulting field values must form a valid `datetime` or the parse fails
(a Python `ValueError`, embedded as `none`). -/

structure PyDateTime where
  year : Nat
  month : Nat
  day : Nat
  hour : Nat
  minute : Nat
  second : Nat
deriving DecidableEq, Repr

def digitVal (c : Char) : Nat := c.toNat - '0'.toNat

/-- `%Y`: exactly four digits (CPython regex `\d\d\d\d`). -/
def parseYear4 : List Char → Option (Nat × List Char)
  | a :: b :: c :: d :: rest =>
    if a.isDigit && b.isDigit && c.isDigit && d.isDigit then
      some (1000 * digitVal a + 100 * digitVal b + 10 * digitVal c + digitVal d, rest)
    else none
  | _ => none

/-- `%m`: CPython regex `1[0-2]|0[1-9]|[1-9]`, alternatives tried in order. -/
def parseMonth : List Char → Option (Nat × List Char)
  | a :: b :: rest =>
    if a = '1' && (b = '0' || b = '1' || b = '2') then some (10 + digitVal b, rest)
    else if a = '0' && b.isDigit && b ≠ '0' then some (digitVal b, rest)
    else if a.isDigit && a ≠ '0' then some (digitVal a, b :: rest)
    else none
  | [a] => if a.isDigit && a ≠ '0' then some (digitVal a, []) else none
  | [] => none

/-- `%d`: CPython regex `3[01]|[12]\d|0[1-9]|[1-9]`. -/
def parseDay : List Char → Option (Nat × List Char)
  | a :: b :: rest =>
    if a = '3' && (b = '0' || b = '1') then some (30 + digitVal b, rest)
    else if (a = '1' || a = '2') && b.isDigit then some (10 * digitVal a + digitVal b, rest)
    else if a = '0' && b.isDigit && b ≠ '0' then some (digitVal b, rest)
    else if a.isDigit && a ≠ '0' then some (digitVal a, b :: rest)
    else none
  | [a] => if a.isDigit && a ≠ '0' then some (digitVal a, []) else none
  | [] => none

/-- `%H`: CPython regex `2[0-3]|[0-1]\d|\d`. -/
def parseHour : List Char → Option (Nat × List Char)
  | a :: b :: rest =>
    if a = '2' && (b = '0' || b = '1' || b = '2' || b = '3') then some (20 + digitVal b, rest)
    else if (a = '0' || a = '1') && b.isDigit then some (10 * digitVal a + digitVal b, rest)
    else if a.isDigit then some (digitVal a, b :: rest)
    else none
  | [a] => if a.isDigit then some (digitVal a, []) else none
  | [] => none

/-- `%M`: CPython regex `[0-5]\d|\d`. -/
def parseMinute : List Char → Option (Nat × List Char)
  | a :: b :: rest =>
    if a.isDigit && digitVal a ≤ 5 && b.isDigit then some (10 * digitVal a + digitVal b, rest)
    else if a.isDigit then some (digitVal a, b :: rest)
    else none
  | [a] => if a.isDigit then some (digitVal a, []) else none
  | [] => none

/-- `%S`: CPython regex `6[0-1]|[0-5]\d|\d` (leap seconds pass the regex but
are rejected by the `datetime` constructor below). -/
def parseSecond : List Char → Option (Nat × List Char)
  | a :: b :: rest =>
    if a = '6' && (b = '0' || b = '1') then some (60 + digitVal b, rest)
    else if a.isDigit && digitVal a ≤ 5 && b.isDigit then some (10 * digitVal a + digitVal b, rest)
    else if a.isDigit then some (digitVal a, b :: rest)
    else none
  | [a] => if a.isDigit then some (digitVal a, []) else none
  | [] => none

/-- A literal character in the format string. -/
def parseLit (c : Char) : List Char → Option (List Char)
  | a :: rest => if a = c then some rest else none
  | [] => none

def isLeapYear (y : Nat) : Bool := y % 4 = 0 && (y % 100 ≠ 0 || y % 400 = 0)

def daysInMonth (y m : Nat) : Nat :=
  if m = 2 then (if isLeapYear y then 29 else 28)
  else if m = 4 || m = 6 || m = 9 || m = 11 then 30
  else 31

/-- `datetime.strptime(s, '%Y-%m-%dT%H:%M:%SZ')`: directive/literal sequence,
full-string match, then `datetime` constructor validation. -/
def strptimeYmdHMSZ (s : String) : Option PyDateTime := do
  let (y, r1) ← parseYear4 s.toList
  let r2 ← parseLit '-' r1
  let (mo, r3) ← parseMonth r2
  let r4 ← parseLit '-' r3
  let (d, r5) ← parseDay r4
  let r6 ← parseLit 'T' r5
  let (h, r7) ← parseHour r6
  let r8 ← parseLit ':' r7
  let (mi, r9) ← parseMinute r8
  let r10 ← parseLit ':' r9
  let (sec, r11) ← parseSecond r10
  let r12 ← parseLit 'Z' r11
  -- "unconverted data remains" error when input is longer than the format
  if !r12.isEmpty then none
  else if y = 0 then none          -- datetime: year must be >= MINYEAR = 1
  else if d > daysInMonth y mo then none
  else if sec > 59 then none       -- datetime rejects leap seconds
  else some ⟨y, mo, d, h, mi, sec⟩

/-- `parse_youtube_date` (app.py lines 7-16): first try
`strptime(date_str.split('.')[0] + 'Z', fmt)`; on `ValueError` fall back to
`strptime(date_str, fmt)`. -/
def parse_youtube_date (date_str : String) : Option PyDateTime :=
  strptimeYmdHMSZ (String.mk ((pySplit '.' date_str.toList).headD []) ++ "Z")
    <|> strptimeYmdHMSZ date_str

/-! ## Channel resolver (`get_channel_id`, app.py lines 18-50) -/

structure ChannelItem where
  id : String
deriving DecidableEq, Repr

structure ChannelsListResponse where
  items : List ChannelItem
deriving DecidableEq, Repr

structure SearchItemSnippet where
  channelId : String
deriving DecidableEq, Repr

structure SearchItem where
  snippet : SearchItemSnippet
deriving DecidableEq, Repr

structure SearchResponse where
  items : List SearchItem
deriving DecidableEq, Repr

/-- `youtube.channels().list(part=..., forUsername=...)` request parameters. -/
structure ChannelsListRequest where
  part : String
  forUsername : String
deriving DecidableEq, Repr

/-- `youtube.search().list(part=..., q=..., type=..., maxResults=...)` request
parameters. -/
structure SearchListRequest where
  part : String
  q : String
  type : String
  maxResults : Nat
deriving DecidableEq, Repr

/-- The remote API as an external collaborator: each `.execute()` either
returns a response dict or raises (embedded as `Except.error`). -/
structure YouTubeAPI where
  channelsList : ChannelsListRequest → Except String ChannelsListResponse
  searchList : SearchListRequest → Except String SearchResponse

/-- One `.execute()` call made by `get_channel_id`, recorded for the trace. -/
inductive ApiCall
  | channels (req : ChannelsListRequest)
  | search (req : SearchListRequest)
deriving DecidableEq, Repr

/-- The exceptions `get_channel_id` can raise. -/
inductive GetChannelIdError
  | indexError                 -- IndexError from `channel_url.split('@')[1]`
  | notFound (msg : String)    -- ValueError(f"Could not find channel ID for {channel_url}")
deriving DecidableEq, Repr

/-- Method 1 (app.py lines 24-34): direct username lookup; result is the
first item's id when `response.get('items')` is truthy; any raised exception
is swallowed (`none`). -/
def tryUsernameLookup (yt : YouTubeAPI) (channel_username : String) : Option String :=
  match yt.channelsList ⟨"id", channel_username⟩ with
  | .ok resp => resp.items.head?.map (fun item => item.id)
  | .error _ => none

/-- Method 2 (app.py lines 36-48): channel search; result is the first hit's
`snippet.channelId`; exceptions swallowed. -/
def trySearchLookup (yt : YouTubeAPI) (channel_username : String) : Option String :=
  match yt.searchList ⟨"snippet", channel_username, "channel", 1⟩ with
  | .ok resp => resp.items.head?.map (fun item => item.snippet.channelId)
  | .error _ => none

/-- `get_channel_id` (app.py lines 18-50), returning the ordered list of API
calls it executed together with its result. -/
def get_channel_id (yt : YouTubeAPI) (channel_url : String) :
    List ApiCall × Except GetChannelIdError String :=
  match (pySplitStr '@' channel_url)[1]? with
  | none => ([], .error .indexError)
  | some channel_username =>
    match tryUsernameLookup yt channel_username with
    | some cid => ([.channels ⟨"id", channel_username⟩], .ok cid)
    | none =>
      match trySearchLookup yt channel_username with
      | some cid =>
        ([.channels ⟨"id", channel_username⟩,
          .search ⟨"snippet", channel_username, "channel", 1⟩], .ok cid)
      | none =>
        ([.channels ⟨"id", channel_username⟩,
          .search ⟨"snippet", channel_username, "channel", 1⟩],
         .error (.notFound ("Could not find channel ID for " ++ channel_url)))

/-! ## Uploads pagination (`get_channel_videos`, app.py lines 117-148) -/

structure ResourceId where
  videoId : String
deriving DecidableEq, Repr

/-- The `item['snippet']` dict read by the pagination loop. -/
structure PlaylistItemSnippet where
  title : String
  description : String
  publishedAt : String
  resourceId : ResourceId
deriving DecidableEq, Repr

structure PlaylistItem where
  snippet : PlaylistItemSnippet
deriving DecidableEq, Repr

/-- The `video_data` dict built for each playlist item (app.py lines 131-138). -/
structure VideoData where
  title : String
  description : String
  publishedAt : String
  videoId : String
  url : String
deriving DecidableEq, Repr

/-- App.py lines 131-138: one playlist item mapped to a video record. -/
def mkVideoData (item : PlaylistItem) : VideoData :=
  let video_id := item.snippet.resourceId.videoId
  { title := item.snippet.title
    description := item.snippet.description
    publishedAt := item.snippet.publishedAt
    videoId := video_id
    url := "https://www.youtube.com/watch?v=" ++ video_id }

/-- One page of `playlistItems().list(...)` response: the `items` list and
`playlist_items.get('nextPageToken')`. -/
structure PageResponse where
  items : List PlaylistItem
  nextPageToken : Option String
deriving DecidableEq, Repr

/-- What one `.execute()` inside the while-loop does: return a response or
raise (any exception, caught by the `except` clause). -/
inductive FetchResult
  | success (resp : PageResponse)
  | failure (msg : String)
deriving DecidableEq, Repr

/-- The `playlistItems().list(...)` request of app.py lines 123-128. -/
structure PlaylistItemsRequest where
  part : String
  playlistId : String
  maxResults : Nat
  pageToken : Option String
deriving DecidableEq, Repr

/-- The while-loop of app.py lines 121-148, embedded as recursion over the
sequence of upstream answers to consecutive requests.  Returns the requests
issued and the accumulated `videos` list.  Each iteration issues one request
with `maxResults=50` and the current token; on a raised exception it breaks,
keeping what was accumulated; on success it appends the mapped items and
continues iff `next_page_token` is truthy (Python: `if not next_page_token:
break`, so both a missing token and an empty-string token stop the loop). -/
def paginateAux (playlistId : String) : Option String → List FetchResult →
    List PlaylistItemsRequest × List VideoData
  | _, [] => ([], [])
  | token, r :: rest =>
    let req : PlaylistItemsRequest := ⟨"snippet", playlistId, 50, token⟩
    match r with
    | .failure _ => ([req], [])
    | .success resp =>
      let vids := resp.items.map mkVideoData
      match resp.nextPageToken with
      | none => ([req], vids)
      | some t =>
        if t.isEmpty then ([req], vids)
        else
          let next := paginateAux playlistId (some t) rest
          (req :: next.1, vids ++ next.2)

/-- The `videos` list the loop leaves behind (first request has no token). -/
def paginate (playlistId : String) (responses : List FetchResult) : List VideoData :=
  (paginateAux playlistId none responses).2

/-- The requests the loop issues. -/
def paginateRequests (playlistId : String) (responses : List FetchResult) :
    List PlaylistItemsRequest :=
  (paginateAux playlistId none responses).1

/-- Python truthiness of `next_page_token` in `if not next_page_token:
break`: `None` and the empty string are falsy. -/
def tokenTruthy : Option String → Bool
  | none => false
  | some t => !t.isEmpty

/-- A finite, fully successful upstream collection: at least one page (the
first request is always answered), every page before the last carries a
non-empty continuation token, and the last page carries none. -/
def wellFormedPages : List PageResponse → Bool
  | [] => false
  | [p] => p.nextPageToken.isNone
  | p :: q :: rest => tokenTruthy p.nextPageToken && wellFormedPages (q :: rest)

/-! ## Report writing and run postlude (`get_channel_videos`, app.py lines 150-188) -/

/-- The dict returned by `get_channel_info` (app.py lines 52-74); counts are
strings as delivered by the API and parsed with `int(...)` at write time. -/
structure ChannelInfo where
  title : String
  description : String
  customUrl : String
  publishedAt : String
  viewCount : String
  subscriberCount : String
  videoCount : String
  country : String
deriving DecidableEq, Repr

/-- A non-empty all-digit sequence read as a `Nat`. -/
def digitsToNat (l : List Char) : Option Nat :=
  if l.isEmpty then none
  else if l.all Char.isDigit then
    some (l.foldl (fun acc c => 10 * acc + digitVal c) 0)
  else none

/-- Python `int(s)` on the canonical decimal numerals the API delivers:
an optional sign followed by digits (`ValueError`, i.e. `none`, otherwise). -/
def pyInt (s : String) : Option Int :=
  match s.toList with
  | '-' :: ds => (digitsToNat ds).map (fun n => -(n : Int))
  | '+' :: ds => (digitsToNat ds).map (fun n => (n : Int))
  | ds => (digitsToNat ds).map (fun n => (n : Int))

/-- Python `f"{n:,}"`: decimal digits grouped in threes by commas. -/
def commaFmt (n : Int) : String :=
  let rec go : List Char → List Char
    | a :: b :: c :: d :: rest => a :: b :: c :: ',' :: go (d :: rest)
    | l => l
  (if n < 0 then "-" else "") ++ String.mk ((go (toString n.natAbs).toList.reverse).reverse)

def monthName (m : Nat) : String :=
  match m with
  | 1 => "January" | 2 => "February" | 3 => "March" | 4 => "April"
  | 5 => "May" | 6 => "June" | 7 => "July" | 8 => "August"
  | 9 => "September" | 10 => "October" | 11 => "November" | 12 => "December"
  | _ => ""

def pad2 (n : Nat) : String :=
  if n < 10 then "0" ++ toString n else toString n

/-- `datetime.strftime('%B %d, %Y')`: full month name, zero-padded day, year. -/
def fmtDateBdY (dt : PyDateTime) : String :=
  monthName dt.month ++ " " ++ pad2 dt.day ++ ", " ++ toString dt.year

def repChar (c : Char) (n : Nat) : String := String.mk (List.replicate n c)

/-- The block written for one video (app.py lines 179-186); `none` when its
timestamp fails to parse (the ValueError would propagate out of the write). -/
def videoBlock (video : VideoData) : Option String := do
  let d ← parse_youtube_date video.publishedAt
  pure ("Title: " ++ video.title ++ "\n"
    ++ "Posted: " ++ fmtDateBdY d ++ "\n"
    ++ "URL: " ++ video.url ++ "\n"
    ++ "Description:\n" ++ video.description ++ "\n"
    ++ repChar '-' 50 ++ "\n\n")

/-- The full file content written by app.py lines 160-186, in `f.write`
order; `none` when a date or count fails to parse (exception during write). -/
def renderReport (info : ChannelInfo) (channelURL : String)
    (videos : List VideoData) : Option String := do
  let created ← parse_youtube_date info.publishedAt
  let subs ← pyInt info.subscriberCount
  let views ← pyInt info.viewCount
  let vidCount ← pyInt info.videoCount
  let blocks ← videos.mapM videoBlock
  pure ("Channel Information: " ++ info.title ++ "\n"
    ++ repChar '=' 50 ++ "\n\n"
    ++ "Channel URL: " ++ channelURL ++ "\n"
    ++ "Created: " ++ fmtDateBdY created ++ "\n"
    ++ "Subscribers: " ++ commaFmt subs ++ "\n"
    ++ "Total Views: " ++ commaFmt views ++ "\n"
    ++ "Total Videos: " ++ commaFmt vidCount ++ "\n"
    ++ "Country: " ++ info.country ++ "\n\n"
    ++ "Channel Description:\n" ++ info.description ++ "\n\n"
    ++ repChar '=' 50 ++ "\n" ++ "Videos\n" ++ repChar '=' 50 ++ "\n\n"
    ++ String.join blocks)

/-- App.py lines 150-188 after the pagination loop: if `videos` is empty,
print and return 0 without touching the filesystem; otherwise write
`output/<channel_username>_videos.txt` and return `len(videos)`.  Result:
return value paired with the file written (path, content), or `Except.error`
when rendering raises. -/
def savePhase (info : ChannelInfo) (channelURL channelUsername : String)
    (videos : List VideoData) : Except String (Nat × Option (String × String)) :=
  if videos.isEmpty then .ok (0, none)
  else
    match renderReport info channelURL videos with
    | none => .error "ValueError: time data does not match format"
    | some content =>
      .ok (videos.length,
           some ("output/" ++ channelUsername ++ "_videos.txt", content))

/-! ## Concrete fixtures used to exercise the theorems -/

/-- An API whose username lookup succeeds. -/
def demoAPI : YouTubeAPI where
  channelsList := fun _ => .ok ⟨[⟨"UCdirect"⟩]⟩
  searchList := fun _ => .ok ⟨[⟨⟨"UCsearch"⟩⟩]⟩

/-- An API whose username lookup raises but whose search finds a hit. -/
def searchOnlyAPI : YouTubeAPI where
  channelsList := fun _ => .error "HttpError 404"
  searchList := fun _ => .ok ⟨[⟨⟨"UCsearch"⟩⟩]⟩

/-- An API where the lookup raises and the search comes back empty. -/
def failingAPI : YouTubeAPI where
  channelsList := fun _ => .error "HttpError 403"
  searchList := fun _ => .ok ⟨[]⟩

def demoInfo : ChannelInfo :=
  ⟨"Demo Channel", "A channel.", "@demo", "2020-01-02T03:04:05Z",
   "1000", "2000", "30", "US"⟩

def demoItem : PlaylistItem :=
  ⟨⟨"Video One", "first video", "2023-05-01T12:00:00Z", ⟨"vid1"⟩⟩⟩

def demoItem2 : PlaylistItem :=
  ⟨⟨"Video Two", "second video", "2023-06-02T08:30:00Z", ⟨"vid2"⟩⟩⟩

def demoPages : List PageResponse :=
  [⟨[demoItem], some "tok"⟩, ⟨[demoItem2, demoItem2], none⟩]

def demoPagesC1 : List PageResponse := [⟨[demoItem], some "tok"⟩]

def demoContent : String :=
  (renderReport demoInfo "https://www.youtube.com/@demo" [mkVideoData demoItem]).getD ""

/-! ## Helper lemmas -/

lemma pySplit_eq_single (sep : Char) (l : List Char) (h : sep ∉ l) :
    pySplit sep l = [l] := by
  induction l with
  | nil => rfl
  | cons c rest ih =>
    simp only [List.mem_cons, not_or] at h
    obtain ⟨h1, h2⟩ := h
    have h1' : ¬c = sep := fun hc => h1 hc.symm
    simp [pySplit, h1', ih h2]

lemma paginateAux_failure_head (playlistId msg : String) (token : Option String)
    (rest : List FetchResult) :
    paginateAux playlistId token (FetchResult.failure msg :: rest)
      = ([⟨"snippet", playlistId, 50, token⟩], []) := rfl

lemma paginateAux_success_last (playlistId : String) (token : Option String)
    (resp : PageResponse) (rest : List FetchResult)
    (htok : resp.nextPageToken = none) :
    paginateAux playlistId token (FetchResult.success resp :: rest)
      = ([⟨"snippet", playlistId, 50, token⟩], resp.items.map mkVideoData) := by
  simp [paginateAux, htok]

lemma paginateAux_success_cons (playlistId : String) (token : Option String)
    (resp : PageResponse) (t : String) (rest : List FetchResult)
    (htok : resp.nextPageToken = some t) (hne : t.isEmpty = false) :
    paginateAux playlistId token (FetchResult.success resp :: rest)
      = (⟨"snippet", playlistId, 50, token⟩ ::
           (paginateAux playlistId (some t) rest).1,
         resp.items.map mkVideoData ++ (paginateAux playlistId (some t) rest).2) := by
  simp [paginateAux, htok, hne]

lemma paginateAux_success_spec (playlistId : String) (pages : List PageResponse) :
    ∀ token : Option String, wellFormedPages pages = true →
      (paginateAux playlistId token (pages.map FetchResult.success)).2
        = (pages.map (fun p => p.items.map mkVideoData)).flatten
      ∧ (paginateAux playlistId token (pages.map FetchResult.success)).1.length
        = pages.length
      ∧ ∀ r ∈ (paginateAux playlistId token (pages.map FetchResult.success)).1,
          r.maxResults = 50 := by
  induction pages with
  | nil => intro token h; simp [wellFormedPages] at h
  | cons p rest ih =>
    intro token h
    cases rest with
    | nil =>
      have hnone : p.nextPageToken = none := by
        simpa [wellFormedPages, Option.isNone_iff_eq_none] using h
      rw [List.map_cons, List.map_nil,
          paginateAux_success_last playlistId token p [] hnone]
      refine ⟨by simp, rfl, ?_⟩
      intro r hr
      simp only [List.mem_singleton] at hr
      rw [hr]
    | cons q rest2 =>
      simp only [wellFormedPages, Bool.and_eq_true] at h
      obtain ⟨htt, hwf⟩ := h
      cases htok : p.nextPageToken with
      | none => rw [htok] at htt; simp [tokenTruthy] at htt
      | some t =>
        rw [htok] at htt
        have hne : t.isEmpty = false := by simpa [tokenTruthy] using htt
        obtain ⟨ih1, ih2, ih3⟩ := ih (some t) hwf
        rw [List.map_cons,
            paginateAux_success_cons playlistId token p t _ htok hne]
        refine ⟨?_, ?_, ?_⟩
        · rw [ih1]
          simp
        · simp only [List.length_cons]
          rw [ih2]
          simp
        · intro r hr
          simp only [List.mem_cons] at hr
          rcases hr with hr | hr
          · rw [hr]
          · exact ih3 r hr

lemma paginateAux_failure_cut (playlistId msg : String)
    (pages : List PageResponse) (rest : List FetchResult) :
    ∀ token : Option String,
      (∀ p ∈ pages, tokenTruthy p.nextPageToken = true) →
      (paginateAux playlistId token
          (pages.map FetchResult.success ++ FetchResult.failure msg :: rest)).2
        = (pages.map (fun p => p.items.map mkVideoData)).flatten := by
  induction pages with
  | nil =>
    intro token _
    rw [List.map_nil, List.nil_append, paginateAux_failure_head]
    rfl
  | cons p ps ih =>
    intro token hall
    have hp := hall p (by simp)
    cases htok : p.nextPageToken with
    | none => rw [htok] at hp; simp [tokenTruthy] at hp
    | some t =>
      rw [htok] at hp
      have hne : t.isEmpty = false := by simpa [tokenTruthy] using hp
      have hrest : ∀ q ∈ ps, tokenTruthy q.nextPageToken = true :=
        fun q hq => hall q (by simp [hq])
      rw [List.map_cons, List.cons_append,
          paginateAux_success_cons playlistId token p t _ htok hne]
      show List.map mkVideoData p.items
            ++ (paginateAux playlistId (some t)
                  (ps.map FetchResult.success ++ FetchResult.failure msg :: rest)).2
          = _
      rw [ih (some t) hrest]
      simp

/-! ## Claim theorems -/

/-- C2: whenever the exact legacy-username lookup returns a non-empty
result, `get_channel_id` returns the first item's id from that result and
its call trace contains only the username-lookup call — the search fallback
is never invoked. -/
theorem resolve_exact_lookup (yt : YouTubeAPI)
    (channel_url channel_username : String)
    (resp : ChannelsListResponse) (item : ChannelItem)
    (hu : (pySplitStr '@' channel_url)[1]? = some channel_username)
    (hresp : yt.channelsList ⟨"id", channel_username⟩ = .ok resp)
    (hitem : resp.items.head? = some item) :
    get_channel_id yt channel_url
      = ([.channels ⟨"id", channel_username⟩], .ok item.id) := by
  simp [get_channel_id, hu, tryUsernameLookup, hresp, hitem]

/-- Witness for C2 at a concrete API and URL. -/
theorem resolve_exact_lookup_witness :
    (pySplitStr '@' "https://www.youtube.com/@somechan")[1]? = some "somechan"
    ∧ demoAPI.channelsList ⟨"id", "somechan"⟩ = .ok ⟨[⟨"UCdirect"⟩]⟩
    ∧ get_channel_id demoAPI "https://www.youtube.com/@somechan"
        = ([.channels ⟨"id", "somechan"⟩], .ok "UCdirect") :=
  ⟨by decide, rfl,
   resolve_exact_lookup demoAPI "https://www.youtube.com/@somechan" "somechan"
     ⟨[⟨"UCdirect"⟩]⟩ ⟨"UCdirect"⟩ (by decide) rfl rfl⟩

/-- C3: when the exact lookup yields no result (empty response or raised
error, both reflected by `tryUsernameLookup = none`) but the channel-typed
search returns at least one hit, `get_channel_id` returns the `channelId`
embedded in the first hit's snippet. -/
theorem resolve_search_fallback (yt : YouTubeAPI)
    (channel_url channel_username : String)
    (resp : SearchResponse) (item : SearchItem)
    (hu : (pySplitStr '@' channel_url)[1]? = some channel_username)
    (h1 : tryUsernameLookup yt channel_username = none)
    (hresp : yt.searchList ⟨"snippet", channel_username, "channel", 1⟩ = .ok resp)
    (hitem : resp.items.head? = some item) :
    get_channel_id yt channel_url
      = ([.channels ⟨"id", channel_username⟩,
          .search ⟨"snippet", channel_username, "channel", 1⟩],
         .ok item.snippet.channelId) := by
  simp [get_channel_id, hu, h1, trySearchLookup, hresp, hitem]

/-- Witness for C3 at a concrete API whose lookup raises. -/
theorem resolve_search_fallback_witness :
    (pySplitStr '@' "@somechan")[1]? = some "somechan"
    ∧ tryUsernameLookup searchOnlyAPI "somechan" = none
    ∧ searchOnlyAPI.searchList ⟨"snippet", "somechan", "channel", 1⟩
        = .ok ⟨[⟨⟨"UCsearch"⟩⟩]⟩
    ∧ get_channel_id searchOnlyAPI "@somechan"
        = ([.channels ⟨"id", "somechan"⟩,
            .search ⟨"snippet", "somechan", "channel", 1⟩], .ok "UCsearch") :=
  ⟨by decide, rfl, rfl,
   resolve_search_fallback searchOnlyAPI "@somechan" "somechan"
     ⟨[⟨⟨"UCsearch"⟩⟩]⟩ ⟨⟨"UCsearch"⟩⟩ (by decide) rfl rfl rfl⟩

/-- C4: when both strategies yield nothing (empty responses or raised
errors), `get_channel_id` raises the ValueError whose message names the
channel reference; the per-strategy errors are swallowed and never appear
in the result. -/
theorem resolve_both_fail (yt : YouTubeAPI)
    (channel_url channel_username : String)
    (hu : (pySplitStr '@' channel_url)[1]? = some channel_username)
    (h1 : tryUsernameLookup yt channel_username = none)
    (h2 : trySearchLookup yt channel_username = none) :
    get_channel_id yt channel_url
      = ([.channels ⟨"id", channel_username⟩,
          .search ⟨"snippet", channel_username, "channel", 1⟩],
         .error (.notFound ("Could not find channel ID for " ++ channel_url))) := by
  simp [get_channel_id, hu, h1, h2]

/-- Witness for C4 at a concrete API where the lookup raises and the search
is empty. -/
theorem resolve_both_fail_witness :
    (pySplitStr '@' "@ghost")[1]? = some "ghost"
    ∧ tryUsernameLookup failingAPI "ghost" = none
    ∧ trySearchLookup failingAPI "ghost" = none
    ∧ get_channel_id failingAPI "@ghost"
        = ([.channels ⟨"id", "ghost"⟩, .search ⟨"snippet", "ghost", "channel", 1⟩],
           .error (.notFound "Could not find channel ID for @ghost")) :=
  ⟨by decide, rfl, rfl,
   resolve_both_fail failingAPI "@ghost" "ghost" (by decide) rfl rfl⟩

/-- C10: for a channel reference with no `'@'`, `get_channel_id` raises an
IndexError from `channel_url.split('@')[1]` with an empty call trace — no
lookup strategy runs and no NotFoundError is produced. -/
theorem get_channel_id_no_at (yt : YouTubeAPI) (channel_url : String)
    (h : '@' ∉ channel_url.toList) :
    get_channel_id yt channel_url = ([], .error .indexError) := by
  have hs : pySplitStr '@' channel_url = [String.mk channel_url.toList] := by
    simp only [pySplitStr]
    rw [pySplit_eq_single '@' channel_url.toList h]
    rfl
  simp [get_channel_id, hs]

/-- Witness for C10 at a concrete URL with no `'@'`. -/
theorem get_channel_id_no_at_witness :
    '@' ∉ ("https://www.youtube.com/c/somechan" : String).toList
    ∧ get_channel_id demoAPI "https://www.youtube.com/c/somechan"
        = ([], .error .indexError) :=
  ⟨by decide,
   get_channel_id_no_at demoAPI "https://www.youtube.com/c/somechan" (by decide)⟩

/-- C5: when every page request succeeds, the loop consumes exactly one
response per page (stopping at the page with no continuation token), returns
one record per upstream item — its length is the collection's total item
count — and every request it issues asks for `maxResults=50`. -/
theorem paginate_success_complete (playlistId : String)
    (pages : List PageResponse) (h : wellFormedPages pages = true) :
    (paginate playlistId (pages.map FetchResult.success)).length
      = (pages.map (fun p => p.items.length)).sum
    ∧ (paginateRequests playlistId (pages.map FetchResult.success)).length
      = pages.length
    ∧ ∀ r ∈ paginateRequests playlistId (pages.map FetchResult.success),
        r.maxResults = 50 := by
  obtain ⟨h1, h2, h3⟩ := paginateAux_success_spec playlistId pages none h
  refine ⟨?_, h2, h3⟩
  simp only [paginate]
  rw [h1, List.length_flatten]
  simp [Function.comp_def]

/-- Witness for C5 on a concrete two-page collection of 1 + 2 items. -/
theorem paginate_success_complete_witness :
    wellFormedPages demoPages = true
    ∧ (paginate "UU1" (demoPages.map FetchResult.success)).length = 3
    ∧ (paginateRequests "UU1" (demoPages.map FetchResult.success)).length = 2
    ∧ ∀ r ∈ paginateRequests "UU1" (demoPages.map FetchResult.success),
        r.maxResults = 50 := by
  have h := paginate_success_complete "UU1" demoPages (by decide)
  exact ⟨by decide, h.1, h.2.1, h.2.2⟩

/-- C1: when pages `1..k-1` succeed (each with a truthy continuation token)
and the k-th request fails, the loop returns exactly the records of pages
`1..k-1` in order without raising, and — when anything was collected — those
records are the ones written to `output/<username>_videos.txt`. -/
theorem paginate_partial_failure_writes (playlistId msg : String)
    (pages : List PageResponse) (rest : List FetchResult)
    (info : ChannelInfo) (channelURL channelUsername content : String)
    (hall : ∀ p ∈ pages, tokenTruthy p.nextPageToken = true)
    (hne : (pages.map (fun p => p.items.map mkVideoData)).flatten ≠ [])
    (hrender : renderReport info channelURL
        ((pages.map (fun p => p.items.map mkVideoData)).flatten) = some content) :
    paginate playlistId
        (pages.map FetchResult.success ++ FetchResult.failure msg :: rest)
      = (pages.map (fun p => p.items.map mkVideoData)).flatten
    ∧ savePhase info channelURL channelUsername
        (paginate playlistId
          (pages.map FetchResult.success ++ FetchResult.failure msg :: rest))
      = .ok ((pages.map (fun p => p.items.map mkVideoData)).flatten.length,
             some ("output/" ++ channelUsername ++ "_videos.txt", content)) := by
  have hp : paginate playlistId
      (pages.map FetchResult.success ++ FetchResult.failure msg :: rest)
      = (pages.map (fun p => p.items.map mkVideoData)).flatten :=
    paginateAux_failure_cut playlistId msg pages rest none hall
  refine ⟨hp, ?_⟩
  rw [hp]
  have hempty : ((pages.map (fun p => p.items.map mkVideoData)).flatten).isEmpty
      = false := by
    simpa [List.isEmpty_iff] using hne
  simp [savePhase, hempty, hrender]

/-- Witness for C1: one successful page of one item, then a failing request;
the single record is returned and written. -/
theorem paginate_partial_failure_writes_witness :
    (∀ p ∈ demoPagesC1, tokenTruthy p.nextPageToken = true)
    ∧ (demoPagesC1.map (fun p => p.items.map mkVideoData)).flatten ≠ []
    ∧ renderReport demoInfo "https://www.youtube.com/@demo"
        ((demoPagesC1.map (fun p => p.items.map mkVideoData)).flatten)
      = some demoContent
    ∧ paginate "UU1" (demoPagesC1.map FetchResult.success
          ++ FetchResult.failure "boom" :: []) = [mkVideoData demoItem]
    ∧ savePhase demoInfo "https://www.youtube.com/@demo" "demo"
        (paginate "UU1" (demoPagesC1.map FetchResult.success
          ++ FetchResult.failure "boom" :: []))
      = .ok (1, some ("output/demo_videos.txt", demoContent)) := by
  have h := paginate_partial_failure_writes "UU1" "boom" demoPagesC1 []
    demoInfo "https://www.youtube.com/@demo" "demo" demoContent
    (by decide) (by decide) (by rfl)
  exact ⟨by decide, by decide, by rfl, h.1, h.2⟩

/-- C6: `parse_youtube_date` succeeds on the timestamp both without and with
a fractional-seconds component, yielding the same result — May 1, 2023,
12:00:00. -/
theorem parse_youtube_date_fractional_invariant :
    parse_youtube_date "2023-05-01T12:00:00Z" = some ⟨2023, 5, 1, 12, 0, 0⟩
    ∧ parse_youtube_date "2023-05-01T12:00:00.123456Z"
        = some ⟨2023, 5, 1, 12, 0, 0⟩
    ∧ parse_youtube_date "2023-05-01T12:00:00Z"
        = parse_youtube_date "2023-05-01T12:00:00.123456Z" :=
  ⟨by decide, by decide, by decide⟩

/-- C7: when pagination yields no records, the run returns 0 and no output
file is produced. -/
theorem empty_pagination_skips_file (playlistId : String)
    (responses : List FetchResult) (info : ChannelInfo)
    (channelURL channelUsername : String)
    (h : paginate playlistId responses = []) :
    savePhase info channelURL channelUsername (paginate playlistId responses)
      = .ok (0, none) := by
  rw [h]
  rfl

/-- Witness for C7 on an empty channel (one page, no items, no token). -/
theorem empty_pagination_skips_file_witness :
    paginate "UU1" [FetchResult.success ⟨[], none⟩] = []
    ∧ savePhase demoInfo "https://www.youtube.com/@demo" "demo"
        (paginate "UU1" [FetchResult.success ⟨[], none⟩]) = .ok (0, none) :=
  ⟨rfl, empty_pagination_skips_file "UU1" [FetchResult.success ⟨[], none⟩]
          demoInfo "https://www.youtube.com/@demo" "demo" rfl⟩

/-- C8: the record built from a playlist item takes title, description,
publish timestamp and video id from the item, and its watch URL is the
fixed template applied to that id. -/
theorem mkVideoData_fields (item : PlaylistItem) :
    (mkVideoData item).title = item.snippet.title
    ∧ (mkVideoData item).description = item.snippet.description
    ∧ (mkVideoData item).publishedAt = item.snippet.publishedAt
    ∧ (mkVideoData item).videoId = item.snippet.resourceId.videoId
    ∧ (mkVideoData item).url
        = "https://www.youtube.com/watch?v=" ++ item.snippet.resourceId.videoId :=
  ⟨rfl, rfl, rfl, rfl, rfl⟩

/-- C9: a failing first page request makes the loop return no records, so
the run succeeds with count 0 and no output file — the same observable
outcome as a genuinely empty channel, whatever channel info was fetched. -/
theorem first_page_failure_like_empty (playlistId msg : String)
    (rest : List FetchResult) (info : ChannelInfo)
    (channelURL channelUsername : String) :
    paginate playlistId (FetchResult.failure msg :: rest) = []
    ∧ savePhase info channelURL channelUsername
        (paginate playlistId (FetchResult.failure msg :: rest)) = .ok (0, none)
    ∧ savePhase info channelURL channelUsername
        (paginate playlistId (FetchResult.failure msg :: rest))
      = savePhase info channelURL channelUsername
          (paginate playlistId [FetchResult.success ⟨[], none⟩]) :=
  ⟨rfl, rfl, rfl⟩
